import Mathlib

/-!
Verification of the Users/Products CRUD service layer.

The two NestJS services (`UsersService`, `ProductsService`) are shallowly
embedded as pure functions over an explicit table state.  A table is the list
of stored rows plus the generator for the next primary key; the TypeORM
repository primitives used by the services (`findOne`, `save`,
`create`+`save`, query-builder `update`/`delete` with a `WHERE id = :id`
clause, `remove(entity)`) become total functions on that state.  Exceptions
(`NotFoundException`, `ConflictException`, `BadRequestException`) become the
`Except` error channel: a service method that throws produces no successor
state, exactly as a request handler that aborts before issuing its write.

`@CreateDateColumn` timestamps are modelled as the insertion ordinal (the
claims under study never inspect their values, only that updates preserve
them); the DB-managed `@UpdateDateColumn` is outside the model.
-/

namespace Crud

/-- The service-level error taxonomy: `NotFoundException`,
`ConflictException`, `BadRequestException`. -/
inductive ApiError where
  | notFound
  | conflict
  | badRequest
deriving Repr, DecidableEq

/-- A stored row of the `users` table (entity `User`): generated `id`,
`name`, unique `email`, nullable `age`, `isActive` (DB default `true`),
`createdAt` modelled as insertion ordinal. -/
structure User where
  id : Nat
  name : String
  email : String
  age : Option Nat
  isActive : Bool
  createdAt : Nat
deriving Repr, DecidableEq

/-- `CreateUserDto`: `name` and `email` required, `age` and `isActive`
optional (absent = `none`). -/
structure CreateUserDto where
  name : String
  email : String
  age : Option Nat := none
  isActive : Option Bool := none
deriving Repr, DecidableEq

/-- `UpdateUserDto`: every field optional; `none` models a property absent
from the PATCH payload. -/
structure UpdateUserDto where
  name : Option String := none
  email : Option String := none
  age : Option Nat := none
  isActive : Option Bool := none
deriving Repr, DecidableEq

/-- The `users` table: stored rows plus the primary-key generator. -/
structure UsersTable where
  rows : List User
  nextId : Nat
deriving Repr, DecidableEq

/-- `UsersService.findOne(id)`: `repository.findOne({where: {id}})`, throwing
`NotFoundException` when no row matches. -/
def findOneUser (t : UsersTable) (id : Nat) : Except ApiError User :=
  match t.rows.find? (fun u => u.id == id) with
  | some u => Except.ok u
  | none => Except.error ApiError.notFound

/-- `UsersService._validateEmailUniqueness(email)`:
`repository.findOne({where: {email}})`, throwing `ConflictException` when a
row with that email exists. -/
def validateEmailUniqueness (t : UsersTable) (email : String) :
    Except ApiError Unit :=
  match t.rows.find? (fun u => u.email == email) with
  | some _ => Except.error ApiError.conflict
  | none => Except.ok ()

/-- `UsersService.create(dto)`: runs the uniqueness pre-check (rethrowing its
`ConflictException`), then `repository.create` + `save`, which inserts a row
with a fresh id and the column default `isActive = true` when the field is
unset.  The catch-all that maps a failed insert to `BadRequestException` has
no reachable trigger in the model, since the pre-check has already ruled out
the duplicate email. -/
def createUser (t : UsersTable) (dto : CreateUserDto) :
    Except ApiError (User × UsersTable) :=
  match validateEmailUniqueness t dto.email with
  | Except.error e => Except.error e
  | Except.ok _ =>
    let u : User :=
      { id := t.nextId, name := dto.name, email := dto.email, age := dto.age,
        isActive := dto.isActive.getD true, createdAt := t.nextId }
    Except.ok (u, { rows := t.rows ++ [u], nextId := t.nextId + 1 })

/-- `Object.assign(user, updateUserDto)` for a DTO coming from a JSON PATCH
body: exactly the properties present in the payload overwrite the entity's
fields. -/
def applyUserPatch (u : User) (dto : UpdateUserDto) : User :=
  { u with
    name := dto.name.getD u.name
    email := dto.email.getD u.email
    age := match dto.age with | some a => some a | none => u.age
    isActive := dto.isActive.getD u.isActive }

/-- `repository.save(user)` for an entity loaded from the table: persists it
back under its primary key. -/
def saveUser (t : UsersTable) (u : User) : UsersTable :=
  { t with rows := t.rows.map (fun v => if v.id == u.id then u else v) }

/-- `UsersService.update(id, dto)`: loads the row (`NotFoundException` if
absent); the guard `if (dto.email && dto.email !== user.email)` re-validates
uniqueness — note the JavaScript truthiness test, under which the empty
string does NOT trigger the re-validation; then `Object.assign` + `save`. -/
def updateUser (t : UsersTable) (id : Nat) (dto : UpdateUserDto) :
    Except ApiError (User × UsersTable) :=
  match findOneUser t id with
  | Except.error e => Except.error e
  | Except.ok u =>
    let check : Except ApiError Unit :=
      match dto.email with
      | some e =>
        if e ≠ "" ∧ e ≠ u.email then validateEmailUniqueness t e
        else Except.ok ()
      | none => Except.ok ()
    match check with
    | Except.error e => Except.error e
    | Except.ok _ =>
      let u2 := applyUserPatch u dto
      Except.ok (u2, saveUser t u2)

/-- `UsersService.remove(id)` (soft delete): loads the row
(`NotFoundException` if absent), sets `isActive = false`, saves. -/
def removeUser (t : UsersTable) (id : Nat) : Except ApiError UsersTable :=
  match findOneUser t id with
  | Except.error e => Except.error e
  | Except.ok u => Except.ok (saveUser t { u with isActive := false })

/-- `UsersService.hardDelete(id)`: loads the row (`NotFoundException` if
absent), then `repository.remove(user)` deletes it permanently. -/
def hardDeleteUser (t : UsersTable) (id : Nat) : Except ApiError UsersTable :=
  match findOneUser t id with
  | Except.error e => Except.error e
  | Except.ok u =>
    Except.ok { t with rows := t.rows.filter (fun v => v.id != u.id) }

/-- A stored row of the `products` table (entity `Product`): generated `id`,
`name`, nullable `description`, decimal `price` (modelled over `ℚ`), integer
`stock` (DB default `0`), `category`, `isAvailable` (DB default `true`),
`createdAt` as insertion ordinal. -/
structure Product where
  id : Nat
  name : String
  description : Option String
  price : Rat
  stock : Int
  category : String
  isAvailable : Bool
  createdAt : Nat
deriving Repr, DecidableEq

/-- `UpdateProductDto` (shape given by the service's `UpdateData`
interface): every field optional; `none` models an absent property. -/
structure UpdateProductDto where
  name : Option String := none
  description : Option String := none
  price : Option Rat := none
  stock : Option Int := none
  category : Option String := none
  isAvailable : Option Bool := none
deriving Repr, DecidableEq

/-- The `products` table: stored rows plus the primary-key generator. -/
structure ProductsTable where
  rows : List Product
  nextId : Nat
deriving Repr, DecidableEq

/-- `ProductsService.findOne(id)`: query-builder `WHERE product.id = :id`,
`getOne()`, throwing `NotFoundException` when no row matches. -/
def findOneProduct (t : ProductsTable) (id : Nat) : Except ApiError Product :=
  match t.rows.find? (fun p => p.id == id) with
  | some p => Except.ok p
  | none => Except.error ApiError.notFound

/-- The field-by-field copy `ProductsService.update` performs: each DTO field
tested against `undefined` and, when present, written into `updateData`. -/
def applyProductPatch (p : Product) (dto : UpdateProductDto) : Product :=
  { p with
    name := dto.name.getD p.name
    description :=
      match dto.description with | some d => some d | none => p.description
    price := dto.price.getD p.price
    stock := dto.stock.getD p.stock
    category := dto.category.getD p.category
    isAvailable := dto.isAvailable.getD p.isAvailable }

/-- `ProductsService.update(id, dto)`: `findOne` (`NotFoundException` if
absent); builds `updateData` from exactly the defined DTO fields; issues
`UPDATE products SET updateData WHERE id = :id`; returns `findOne(id)`
again. -/
def updateProduct (t : ProductsTable) (id : Nat) (dto : UpdateProductDto) :
    Except ApiError (Product × ProductsTable) :=
  match findOneProduct t id with
  | Except.error e => Except.error e
  | Except.ok _ =>
    let t2 : ProductsTable :=
      { t with
        rows := t.rows.map
          (fun q => if q.id == id then applyProductPatch q dto else q) }
    match findOneProduct t2 id with
    | Except.error e => Except.error e
    | Except.ok p2 => Except.ok (p2, t2)

/-- `ProductsService._validateStock(stock)`: throws `BadRequestException`
when the stock is negative. -/
def validateStock (stock : Int) : Except ApiError Unit :=
  if stock < 0 then Except.error ApiError.badRequest else Except.ok ()

/-- `ProductsService.updateStock(id, newStock)`: FIRST `findOne(id)`
(`NotFoundException` if absent), THEN `_validateStock`
(`BadRequestException` if negative), then
`UPDATE products SET stock = :newStock WHERE id = :id`. -/
def updateStock (t : ProductsTable) (id : Nat) (newStock : Int) :
    Except ApiError ProductsTable :=
  match findOneProduct t id with
  | Except.error e => Except.error e
  | Except.ok _ =>
    match validateStock newStock with
    | Except.error e => Except.error e
    | Except.ok _ =>
      Except.ok
        { t with
          rows := t.rows.map
            (fun q => if q.id == id then { q with stock := newStock } else q) }

/-- `ProductsService.remove(id)`: `findOne` (`NotFoundException` if absent),
then `DELETE FROM products WHERE id = :id` — a physical delete despite the
name. -/
def removeProduct (t : ProductsTable) (id : Nat) :
    Except ApiError ProductsTable :=
  match findOneProduct t id with
  | Except.error e => Except.error e
  | Except.ok _ =>
    Except.ok { t with rows := t.rows.filter (fun q => q.id != id) }

/-- `ProductsService.softDelete(id)`: `findOne` (`NotFoundException` if
absent), then `UPDATE products SET isAvailable = false WHERE id = :id`. -/
def softDeleteProduct (t : ProductsTable) (id : Nat) :
    Except ApiError ProductsTable :=
  match findOneProduct t id with
  | Except.error e => Except.error e
  | Except.ok _ =>
    Except.ok
      { t with
        rows := t.rows.map
          (fun q => if q.id == id then { q with isAvailable := false } else q) }

/-- `ProductsService.hardDelete(id)`: `findOne` (`NotFoundException` if
absent), then `DELETE FROM products WHERE id = :id` — the same statement as
`remove`. -/
def hardDeleteProduct (t : ProductsTable) (id : Nat) :
    Except ApiError ProductsTable :=
  match findOneProduct t id with
  | Except.error e => Except.error e
  | Except.ok _ =>
    Except.ok { t with rows := t.rows.filter (fun q => q.id != id) }

/-- Modelled from the spec: the default low-stock threshold is
implementation-defined (`findLowStock(threshold?)`); it is fixed here as
10. -/
def lowStockDefaultThreshold : Int := 10

/-- Modelled from the spec: the body of `ProductsService.findByPriceRange`
is not among the provided sources (only its controller caller is).  Spec:
"`findByPriceRange(min, max)`: inclusive range filter" on price. -/
def findByPriceRange (t : ProductsTable) (lo hi : Rat) : List Product :=
  t.rows.filter (fun p => decide (lo ≤ p.price) && decide (p.price ≤ hi))

/-- Modelled from the spec: the body of `ProductsService.findLowStock` is
not among the provided sources (only its controller caller is).  Spec:
"`findLowStock(threshold?)`: rows where stock ≤ threshold (default threshold
implementation-defined if omitted)". -/
def findLowStock (t : ProductsTable) (threshold : Option Int) : List Product :=
  t.rows.filter (fun p => decide (p.stock ≤ threshold.getD lowStockDefaultThreshold))

/-- The stored users other than those with a given id — the part of the
table an id-addressed operation must not touch. -/
def usersExcept (t : UsersTable) (id : Nat) : List User :=
  t.rows.filter (fun u => u.id != id)

/-- The stored products other than those with a given id. -/
def productsExcept (t : ProductsTable) (id : Nat) : List Product :=
  t.rows.filter (fun p => p.id != id)

/-!
Shared lemmas about the table primitives.  All writes the services issue are
either a keyed map (`UPDATE ... WHERE id = :id`, `save`) or a keyed filter
(`DELETE ... WHERE id = :id`), so the lemmas are stated once over lists with
a key function.
-/

/-- Looking up a key after a keyed overwrite finds the overwritten entry. -/
theorem find?_map_ite {α : Type} (l : List α) (key : α → Nat) (id : Nat)
    (g : α → α) (hg : ∀ a, key a = id → key (g a) = id) :
    (l.map (fun a => if key a == id then g a else a)).find?
        (fun a => key a == id) =
      (l.find? (fun a => key a == id)).map
        (fun a => if key a == id then g a else a) := by
  have hpf : ((fun a => key a == id) ∘ fun a => if key a == id then g a else a)
      = (fun a => key a == id) := by
    funext a
    by_cases h : key a = id
    · simp [h, hg a h]
    · simp [h]
  rw [List.find?_map, hpf]

/-- A keyed overwrite leaves the entries with every other key unchanged. -/
theorem filter_ne_map_ite {α : Type} (l : List α) (key : α → Nat) (id : Nat)
    (g : α → α) (hg : ∀ a, key a = id → key (g a) = id) :
    (l.map (fun a => if key a == id then g a else a)).filter
        (fun a => key a != id) =
      l.filter (fun a => key a != id) := by
  induction l with
  | nil => rfl
  | cons a l ih =>
    simp only [List.map_cons, List.filter_cons]
    by_cases h : key a = id
    · have h2 : (key (g a) != id) = false := by simp [hg a h]
      simp only [h]
      simp [h2]
      simpa using ih
    · simp [h]
      simpa using ih

/-- Looking up a key after a keyed deletion finds nothing. -/
theorem find?_filter_ne {α : Type} (l : List α) (key : α → Nat) (id : Nat) :
    (l.filter (fun a => key a != id)).find? (fun a => key a == id) = none := by
  rw [List.find?_eq_none]
  intro a ha
  have := List.of_mem_filter ha
  simp at this ⊢
  exact this

/-- A keyed deletion leaves the entries with every other key unchanged. -/
theorem filter_ne_filter_ne {α : Type} (l : List α) (key : α → Nat) (id : Nat) :
    (l.filter (fun a => key a != id)).filter (fun a => key a != id) =
      l.filter (fun a => key a != id) := by
  rw [List.filter_filter]
  simp

/-- A successful keyed lookup returns an entry carrying the key. -/
theorem find?_some_key {α : Type} {l : List α} {key : α → Nat} {id : Nat}
    {a : α} (h : l.find? (fun a => key a == id) = some a) : key a = id := by
  have := List.find?_some h
  simpa using this

/-- `findOneUser` succeeds exactly on the first stored row with the id. -/
theorem findOneUser_ok_iff {t : UsersTable} {id : Nat} {u : User} :
    findOneUser t id = Except.ok u ↔
      t.rows.find? (fun v => v.id == id) = some u := by
  unfold findOneUser
  cases h : t.rows.find? (fun v => v.id == id) <;> simp

/-- `findOneUser` signals not-found exactly when no row has the id. -/
theorem findOneUser_error_iff {t : UsersTable} {id : Nat} :
    findOneUser t id = Except.error ApiError.notFound ↔
      ∀ u ∈ t.rows, u.id ≠ id := by
  unfold findOneUser
  cases h : t.rows.find? (fun v => v.id == id) with
  | none =>
    rw [List.find?_eq_none] at h
    simpa using h
  | some v =>
    have hv := List.mem_of_find?_eq_some h
    have hvid : v.id = id := find?_some_key h
    simp only []
    constructor
    · intro hcontra
      exact absurd hcontra (by simp)
    · intro hall
      exact absurd hvid (hall v hv)

/-- `findOneProduct` succeeds exactly on the first stored row with the id. -/
theorem findOneProduct_ok_iff {t : ProductsTable} {id : Nat} {p : Product} :
    findOneProduct t id = Except.ok p ↔
      t.rows.find? (fun q => q.id == id) = some p := by
  unfold findOneProduct
  cases h : t.rows.find? (fun q => q.id == id) <;> simp

/-- `findOneProduct` signals not-found exactly when no row has the id. -/
theorem findOneProduct_error_iff {t : ProductsTable} {id : Nat} :
    findOneProduct t id = Except.error ApiError.notFound ↔
      ∀ p ∈ t.rows, p.id ≠ id := by
  unfold findOneProduct
  cases h : t.rows.find? (fun q => q.id == id) with
  | none =>
    rw [List.find?_eq_none] at h
    simpa using h
  | some q =>
    have hq := List.mem_of_find?_eq_some h
    have hqid : q.id = id := find?_some_key h
    simp only []
    constructor
    · intro hcontra
      exact absurd hcontra (by simp)
    · intro hall
      exact absurd hqid (hall q hq)

/-- On success, `UsersService.update` returns exactly the loaded row patched
with the present payload fields. -/
theorem updateUser_ok_shape {t : UsersTable} {id : Nat} {dto : UpdateUserDto}
    {u u2 : User} {t2 : UsersTable} (hfind : findOneUser t id = Except.ok u)
    (hupd : updateUser t id dto = Except.ok (u2, t2)) :
    u2 = applyUserPatch u dto ∧ t2 = saveUser t (applyUserPatch u dto) := by
  unfold updateUser at hupd
  rw [hfind] at hupd
  simp only [] at hupd
  cases hchk : (match dto.email with
    | some e =>
      if e ≠ "" ∧ e ≠ u.email then validateEmailUniqueness t e
      else Except.ok ()
    | none => (Except.ok () : Except ApiError Unit)) with
  | error e =>
    rw [hchk] at hupd
    exact absurd hupd (by simp)
  | ok _ =>
    rw [hchk] at hupd
    simp only [Except.ok.injEq, Prod.mk.injEq] at hupd
    exact ⟨hupd.1.symm, hupd.2.symm⟩

/-- On success, `ProductsService.update` writes exactly the patched row at
the id and returns it. -/
theorem updateProduct_ok_shape {t : ProductsTable} {id : Nat}
    {dto : UpdateProductDto} {p p2 : Product} {t2 : ProductsTable}
    (hfind : findOneProduct t id = Except.ok p)
    (hupd : updateProduct t id dto = Except.ok (p2, t2)) :
    p2 = applyProductPatch p dto ∧
      t2 = { t with
        rows := t.rows.map
          (fun q => if q.id == id then applyProductPatch q dto else q) } := by
  have hfind' := findOneProduct_ok_iff.mp hfind
  have hsecond : findOneProduct
      { t with
        rows := t.rows.map
          (fun q => if q.id == id then applyProductPatch q dto else q) } id =
      Except.ok (applyProductPatch p dto) := by
    rw [findOneProduct_ok_iff]
    show (t.rows.map
        (fun q => if q.id == id then applyProductPatch q dto else q)).find?
        (fun q => q.id == id) = _
    rw [find?_map_ite t.rows (fun q => q.id) id
      (fun q => applyProductPatch q dto) (fun a ha => ha), hfind']
    have hpid : p.id = id := find?_some_key hfind'
    simp [hpid]
  unfold updateProduct at hupd
  rw [hfind] at hupd
  simp only [] at hupd
  rw [hsecond] at hupd
  simp only [Except.ok.injEq, Prod.mk.injEq] at hupd
  exact ⟨hupd.1.symm, hupd.2.symm⟩

/-- C1: a `UsersService.create` call whose payload email equals the email of
an already-stored user signals Conflict and yields no successor state (no
row is inserted); otherwise it inserts exactly one row, with `isActive`
defaulting to `true` when unset, and returns the stored record. -/
theorem createUser_email_uniqueness (t : UsersTable) (dto : CreateUserDto) :
    ((∃ u ∈ t.rows, u.email = dto.email) →
      createUser t dto = Except.error ApiError.conflict) ∧
    ((∀ u ∈ t.rows, u.email ≠ dto.email) →
      ∃ u, createUser t dto =
          Except.ok (u, { rows := t.rows ++ [u], nextId := t.nextId + 1 }) ∧
        u.name = dto.name ∧ u.email = dto.email ∧ u.age = dto.age ∧
        u.isActive = dto.isActive.getD true) := by
  constructor
  · rintro ⟨u, hu, he⟩
    unfold createUser validateEmailUniqueness
    cases hfind : t.rows.find? (fun v => v.email == dto.email) with
    | none =>
      rw [List.find?_eq_none] at hfind
      exact absurd (by simp [he]) (hfind u hu)
    | some v => simp
  · intro h
    have hnone : t.rows.find? (fun v => v.email == dto.email) = none := by
      rw [List.find?_eq_none]
      intro v hv
      simpa using h v hv
    unfold createUser validateEmailUniqueness
    rw [hnone]
    exact ⟨_, rfl, rfl, rfl, rfl, rfl⟩

/-- Concrete instantiation of C1: with `ana@x.com` already stored, creating
a second `ana@x.com` user conflicts; creating `bob@x.com` inserts one row
with `isActive = true`. -/
theorem createUser_email_uniqueness_witness :
    createUser ⟨[⟨1, "Ana Ruiz", "ana@x.com", none, true, 1⟩], 2⟩
        { name := "Bob", email := "ana@x.com" } =
      Except.error ApiError.conflict ∧
    ∃ u, createUser ⟨[⟨1, "Ana Ruiz", "ana@x.com", none, true, 1⟩], 2⟩
        { name := "Bob", email := "bob@x.com" } =
        Except.ok (u,
          { rows := [⟨1, "Ana Ruiz", "ana@x.com", none, true, 1⟩] ++ [u],
            nextId := 3 }) ∧
      u.name = "Bob" ∧ u.email = "bob@x.com" ∧ u.age = none ∧
      u.isActive = (none : Option Bool).getD true :=
  ⟨(createUser_email_uniqueness _ _).1
      ⟨⟨1, "Ana Ruiz", "ana@x.com", none, true, 1⟩, by simp, rfl⟩,
    (createUser_email_uniqueness _ _).2 (by simp)⟩

/-- C2: for every stored user or product and every partial-update payload,
`update(id, payload)` modifies exactly the fields explicitly present in the
payload and leaves every absent field (and the id and creation timestamp)
unchanged; in particular a user update whose payload is only `{age: 30}`
leaves `name`, `email` and `isActive` unchanged. -/
theorem update_partial_patch :
    (∀ (t : UsersTable) (id : Nat) (dto : UpdateUserDto) (u u2 : User)
        (t2 : UsersTable),
      findOneUser t id = Except.ok u →
      updateUser t id dto = Except.ok (u2, t2) →
      u2.id = u.id ∧ u2.createdAt = u.createdAt ∧
      (dto.name = none → u2.name = u.name) ∧
      (∀ v, dto.name = some v → u2.name = v) ∧
      (dto.email = none → u2.email = u.email) ∧
      (∀ v, dto.email = some v → u2.email = v) ∧
      (dto.age = none → u2.age = u.age) ∧
      (∀ v, dto.age = some v → u2.age = some v) ∧
      (dto.isActive = none → u2.isActive = u.isActive) ∧
      (∀ v, dto.isActive = some v → u2.isActive = v)) ∧
    (∀ (t : ProductsTable) (id : Nat) (dto : UpdateProductDto) (p p2 : Product)
        (t2 : ProductsTable),
      findOneProduct t id = Except.ok p →
      updateProduct t id dto = Except.ok (p2, t2) →
      p2.id = p.id ∧ p2.createdAt = p.createdAt ∧
      (dto.name = none → p2.name = p.name) ∧
      (∀ v, dto.name = some v → p2.name = v) ∧
      (dto.description = none → p2.description = p.description) ∧
      (∀ v, dto.description = some v → p2.description = some v) ∧
      (dto.price = none → p2.price = p.price) ∧
      (∀ v, dto.price = some v → p2.price = v) ∧
      (dto.stock = none → p2.stock = p.stock) ∧
      (∀ v, dto.stock = some v → p2.stock = v) ∧
      (dto.category = none → p2.category = p.category) ∧
      (∀ v, dto.category = some v → p2.category = v) ∧
      (dto.isAvailable = none → p2.isAvailable = p.isAvailable) ∧
      (∀ v, dto.isAvailable = some v → p2.isAvailable = v)) ∧
    (∀ (t : UsersTable) (id : Nat) (u u2 : User) (t2 : UsersTable),
      findOneUser t id = Except.ok u →
      updateUser t id { age := some 30 } = Except.ok (u2, t2) →
      u2.name = u.name ∧ u2.email = u.email ∧ u2.isActive = u.isActive) := by
  have husers : ∀ (t : UsersTable) (id : Nat) (dto : UpdateUserDto)
      (u u2 : User) (t2 : UsersTable),
      findOneUser t id = Except.ok u →
      updateUser t id dto = Except.ok (u2, t2) →
      u2.id = u.id ∧ u2.createdAt = u.createdAt ∧
      (dto.name = none → u2.name = u.name) ∧
      (∀ v, dto.name = some v → u2.name = v) ∧
      (dto.email = none → u2.email = u.email) ∧
      (∀ v, dto.email = some v → u2.email = v) ∧
      (dto.age = none → u2.age = u.age) ∧
      (∀ v, dto.age = some v → u2.age = some v) ∧
      (dto.isActive = none → u2.isActive = u.isActive) ∧
      (∀ v, dto.isActive = some v → u2.isActive = v) := by
    intro t id dto u u2 t2 hfind hupd
    obtain ⟨hu2, -⟩ := updateUser_ok_shape hfind hupd
    subst hu2
    refine ⟨rfl, rfl, ?_, ?_, ?_, ?_, ?_, ?_, ?_, ?_⟩ <;>
      first
        | (intro h
           simp [applyUserPatch, h])
        | (intro v h
           simp [applyUserPatch, h])
  refine ⟨husers, ?_, ?_⟩
  · intro t id dto p p2 t2 hfind hupd
    obtain ⟨hp2, -⟩ := updateProduct_ok_shape hfind hupd
    subst hp2
    refine ⟨rfl, rfl, ?_, ?_, ?_, ?_, ?_, ?_, ?_, ?_, ?_, ?_, ?_, ?_⟩ <;>
      first
        | (intro h
           simp [applyProductPatch, h])
        | (intro v h
           simp [applyProductPatch, h])
  · intro t id u u2 t2 hfind hupd
    obtain ⟨-, -, h1, -, h2, -, -, -, h3, -⟩ :=
      husers t id { age := some 30 } u u2 t2 hfind hupd
    exact ⟨h1 rfl, h2 rfl, h3 rfl⟩

/-- Concrete instantiation of C2: updating the stored user `Ana Ruiz` with
the payload `{age: 30}` and the stored `Lamp` product with `{price: 12}`
leaves every absent field unchanged. -/
theorem update_partial_patch_witness :
    ((⟨1, "Ana Ruiz", "ana@x.com", some 30, true, 1⟩ : User).name
        = (⟨1, "Ana Ruiz", "ana@x.com", none, true, 1⟩ : User).name ∧
      (⟨1, "Ana Ruiz", "ana@x.com", some 30, true, 1⟩ : User).email
        = (⟨1, "Ana Ruiz", "ana@x.com", none, true, 1⟩ : User).email ∧
      (⟨1, "Ana Ruiz", "ana@x.com", some 30, true, 1⟩ : User).isActive
        = (⟨1, "Ana Ruiz", "ana@x.com", none, true, 1⟩ : User).isActive) ∧
    ((⟨1, "Lamp", none, 12, 3, "home", true, 1⟩ : Product).stock
        = (⟨1, "Lamp", none, 15, 3, "home", true, 1⟩ : Product).stock ∧
      (⟨1, "Lamp", none, 12, 3, "home", true, 1⟩ : Product).category
        = (⟨1, "Lamp", none, 15, 3, "home", true, 1⟩ : Product).category) :=
  ⟨(update_partial_patch.2.2
      ⟨[⟨1, "Ana Ruiz", "ana@x.com", none, true, 1⟩], 2⟩ 1
      ⟨1, "Ana Ruiz", "ana@x.com", none, true, 1⟩
      ⟨1, "Ana Ruiz", "ana@x.com", some 30, true, 1⟩
      ⟨[⟨1, "Ana Ruiz", "ana@x.com", some 30, true, 1⟩], 2⟩ rfl rfl),
    (let h := update_partial_patch.2.1
      ⟨[⟨1, "Lamp", none, 15, 3, "home", true, 1⟩], 2⟩ 1
      { price := some 12 }
      ⟨1, "Lamp", none, 15, 3, "home", true, 1⟩
      ⟨1, "Lamp", none, 12, 3, "home", true, 1⟩
      ⟨[⟨1, "Lamp", none, 12, 3, "home", true, 1⟩], 2⟩ rfl rfl
    ⟨h.2.2.2.2.2.2.2.2.1 rfl, h.2.2.2.2.2.2.2.2.2.2.1 rfl⟩)⟩

/-- C3: `ProductsService.remove` and `ProductsService.hardDelete` are
observationally equivalent: for every state and id they return identical
results, both signal not-found exactly when no product with the id exists,
and otherwise both permanently delete the rows with that id. -/
theorem removeProduct_eq_hardDeleteProduct (t : ProductsTable) (id : Nat) :
    removeProduct t id = hardDeleteProduct t id ∧
    (removeProduct t id = Except.error ApiError.notFound ↔
      ∀ p ∈ t.rows, p.id ≠ id) ∧
    (∀ t2, removeProduct t id = Except.ok t2 →
      t2 = { t with rows := t.rows.filter (fun q => q.id != id) }) := by
  refine ⟨rfl, ?_, ?_⟩
  · constructor
    · intro h
      unfold removeProduct at h
      cases hf : findOneProduct t id with
      | error e =>
        rw [hf] at h
        simp only [Except.error.injEq] at h
        subst h
        exact findOneProduct_error_iff.mp hf
      | ok p =>
        rw [hf] at h
        exact absurd h (by simp)
    · intro h
      have herr := findOneProduct_error_iff.mpr h
      unfold removeProduct
      rw [herr]
  · intro t2 h
    unfold removeProduct at h
    cases hf : findOneProduct t id with
    | error e =>
      rw [hf] at h
      exact absurd h (by simp)
    | ok p =>
      rw [hf] at h
      simp only [Except.ok.injEq] at h
      exact h.symm

/-- Concrete instantiation of C3: on a one-product table, `remove` and
`hardDelete` agree, `remove` of a missing id reports not-found, and `remove`
of the stored id empties the table. -/
theorem removeProduct_eq_hardDeleteProduct_witness :
    removeProduct ⟨[⟨1, "Lamp", none, 15, 3, "home", true, 1⟩], 2⟩ 1 =
      hardDeleteProduct ⟨[⟨1, "Lamp", none, 15, 3, "home", true, 1⟩], 2⟩ 1 ∧
    (∀ p ∈ (⟨[⟨1, "Lamp", none, 15, 3, "home", true, 1⟩], 2⟩ :
        ProductsTable).rows, p.id ≠ 2) ∧
    (⟨[], 2⟩ : ProductsTable) =
      { rows := ([⟨1, "Lamp", none, 15, 3, "home", true, 1⟩] :
          List Product).filter (fun q => q.id != 1),
        nextId := 2 } :=
  ⟨(removeProduct_eq_hardDeleteProduct
      ⟨[⟨1, "Lamp", none, 15, 3, "home", true, 1⟩], 2⟩ 1).1,
    (removeProduct_eq_hardDeleteProduct
      ⟨[⟨1, "Lamp", none, 15, 3, "home", true, 1⟩], 2⟩ 2).2.1.mp rfl,
    (removeProduct_eq_hardDeleteProduct
      ⟨[⟨1, "Lamp", none, 15, 3, "home", true, 1⟩], 2⟩ 1).2.2 ⟨[], 2⟩ rfl⟩

/-- C4: `findByPriceRange(min, max)` returns exactly the stored products
whose price lies in the inclusive interval `[min, max]`. -/
theorem findByPriceRange_inclusive (t : ProductsTable) (lo hi : Rat)
    (p : Product) :
    p ∈ findByPriceRange t lo hi ↔
      p ∈ t.rows ∧ lo ≤ p.price ∧ p.price ≤ hi := by
  unfold findByPriceRange
  rw [List.mem_filter]
  simp

/-- Concrete instantiation of C4: a product priced 15 is in the inclusive
range `[10, 20]` of its table. -/
theorem findByPriceRange_inclusive_witness :
    (⟨1, "Lamp", none, 15, 3, "home", true, 1⟩ : Product) ∈
      findByPriceRange ⟨[⟨1, "Lamp", none, 15, 3, "home", true, 1⟩], 2⟩ 10 20 :=
  (findByPriceRange_inclusive
      ⟨[⟨1, "Lamp", none, 15, 3, "home", true, 1⟩], 2⟩ 10 20
      ⟨1, "Lamp", none, 15, 3, "home", true, 1⟩).mpr
    ⟨by simp, by norm_num, by norm_num⟩

/-- C5: `findLowStock(threshold?)` returns exactly the stored products whose
stock is at most the threshold, the implementation-defined default applying
when the argument is omitted. -/
theorem findLowStock_le_threshold (t : ProductsTable)
    (threshold : Option Int) (p : Product) :
    p ∈ findLowStock t threshold ↔
      p ∈ t.rows ∧ p.stock ≤ threshold.getD lowStockDefaultThreshold := by
  unfold findLowStock
  rw [List.mem_filter]
  simp

/-- Concrete instantiation of C5: a product with stock 3 is in the low-stock
listing for threshold 5. -/
theorem findLowStock_le_threshold_witness :
    (⟨1, "Lamp", none, 15, 3, "home", true, 1⟩ : Product) ∈
      findLowStock ⟨[⟨1, "Lamp", none, 15, 3, "home", true, 1⟩], 2⟩ (some 5) :=
  (findLowStock_le_threshold
      ⟨[⟨1, "Lamp", none, 15, 3, "home", true, 1⟩], 2⟩ (some 5)
      ⟨1, "Lamp", none, 15, 3, "home", true, 1⟩).mpr
    ⟨by simp, by norm_num⟩

/-- C6: for a stored product, `updateStock` with a negative value signals
bad-request and produces no successor state — the stock (and the whole
table) is left unchanged, since the exception is raised before the UPDATE
statement is issued. -/
theorem updateStock_negative_badRequest (t : ProductsTable) (id : Nat)
    (p : Product) (hfind : findOneProduct t id = Except.ok p)
    (s : Int) (hs : s < 0) :
    updateStock t id s = Except.error ApiError.badRequest ∧
    ∀ t2, updateStock t id s ≠ Except.ok t2 := by
  have h : updateStock t id s = Except.error ApiError.badRequest := by
    unfold updateStock
    rw [hfind]
    simp [validateStock, hs]
  refine ⟨h, fun t2 hc => ?_⟩
  rw [h] at hc
  exact Except.noConfusion hc

/-- Concrete instantiation of C6: setting stock `-5` on the stored `Lamp`
product is rejected with bad-request. -/
theorem updateStock_negative_badRequest_witness :
    updateStock ⟨[⟨1, "Lamp", none, 15, 3, "home", true, 1⟩], 2⟩ 1 (-5) =
      Except.error ApiError.badRequest :=
  (updateStock_negative_badRequest
      ⟨[⟨1, "Lamp", none, 15, 3, "home", true, 1⟩], 2⟩ 1
      ⟨1, "Lamp", none, 15, 3, "home", true, 1⟩ rfl (-5) (by decide)).1

/-- C7 as stated is false: `updateStock` loads the record BEFORE validating
the stock, so a negative `newStock` on an absent id yields not-found, not
bad-request. -/
theorem updateStock_counterexample :
    updateStock ⟨[], 1⟩ 1 (-1) = Except.error ApiError.notFound ∧
    ApiError.notFound ≠ ApiError.badRequest :=
  ⟨rfl, by decide⟩

/-- C7 amended: `updateStock(id, newStock)` proceeds in the order: first
loads the record (signaling not-found if absent), then validates
`newStock ≥ 0` (signaling bad-request if negative), then persists the new
stock value only; consequently a negative `newStock` yields bad-request
exactly when the product exists, and not-found otherwise. -/
theorem updateStock_loads_then_validates (t : ProductsTable) (id : Nat)
    (s : Int) :
    ((∀ p ∈ t.rows, p.id ≠ id) →
      updateStock t id s = Except.error ApiError.notFound) ∧
    (∀ p, findOneProduct t id = Except.ok p → s < 0 →
      updateStock t id s = Except.error ApiError.badRequest) ∧
    (∀ p, findOneProduct t id = Except.ok p → 0 ≤ s →
      ∃ t2, updateStock t id s = Except.ok t2 ∧
        findOneProduct t2 id = Except.ok { p with stock := s } ∧
        t2.rows = t.rows.map
          (fun q => if q.id == id then { q with stock := s } else q)) := by
  refine ⟨?_, ?_, ?_⟩
  · intro h
    have herr := findOneProduct_error_iff.mpr h
    unfold updateStock
    rw [herr]
  · intro p hfind hs
    unfold updateStock
    rw [hfind]
    simp [validateStock, hs]
  · intro p hfind hs
    have hfind' := findOneProduct_ok_iff.mp hfind
    have hpid : p.id = id := find?_some_key hfind'
    refine ⟨{ t with
        rows := t.rows.map
          (fun q => if q.id == id then { q with stock := s } else q) },
      ?_, ?_, rfl⟩
    · unfold updateStock
      rw [hfind]
      simp [validateStock, not_lt.mpr hs]
    · rw [findOneProduct_ok_iff]
      show (t.rows.map
          (fun q => if q.id == id then { q with stock := s } else q)).find?
          (fun q => q.id == id) = _
      rw [find?_map_ite t.rows (fun q => q.id) id
        (fun q => { q with stock := s }) (fun a ha => ha), hfind']
      simp [hpid]

/-- Concrete instantiation of the amended C7: a negative stock on an absent
id is not-found, the same negative stock on a stored id is bad-request, and
a non-negative stock is persisted. -/
theorem updateStock_loads_then_validates_witness :
    updateStock ⟨[], 1⟩ 7 (-3) = Except.error ApiError.notFound ∧
    updateStock ⟨[⟨1, "Lamp", none, 15, 3, "home", true, 1⟩], 2⟩ 1 (-3) =
      Except.error ApiError.badRequest ∧
    ∃ t2, updateStock ⟨[⟨1, "Lamp", none, 15, 3, "home", true, 1⟩], 2⟩ 1 4 =
        Except.ok t2 ∧
      findOneProduct t2 1 = Except.ok ⟨1, "Lamp", none, 15, 4, "home", true, 1⟩ ∧
      t2.rows = ([⟨1, "Lamp", none, 15, 3, "home", true, 1⟩] :
          List Product).map
        (fun q => if q.id == 1 then { q with stock := 4 } else q) :=
  ⟨(updateStock_loads_then_validates ⟨[], 1⟩ 7 (-3)).1 (by simp),
    (updateStock_loads_then_validates
        ⟨[⟨1, "Lamp", none, 15, 3, "home", true, 1⟩], 2⟩ 1 (-3)).2.1
      ⟨1, "Lamp", none, 15, 3, "home", true, 1⟩ rfl (by decide),
    (updateStock_loads_then_validates
        ⟨[⟨1, "Lamp", none, 15, 3, "home", true, 1⟩], 2⟩ 1 4).2.2
      ⟨1, "Lamp", none, 15, 3, "home", true, 1⟩ rfl (by decide)⟩

/-- Saving an entity whose id is the looked-up key makes the next lookup
return exactly that entity. -/
theorem findOneUser_after_save {t : UsersTable} {id : Nat} {u u2 : User}
    (hfind : t.rows.find? (fun v => v.id == id) = some u) (hid : u2.id = id) :
    findOneUser (saveUser t u2) id = Except.ok u2 := by
  rw [findOneUser_ok_iff]
  show (t.rows.map (fun v => if v.id == u2.id then u2 else v)).find?
      (fun v => v.id == id) = some u2
  rw [hid]
  rw [find?_map_ite t.rows (fun v => v.id) id (fun _ => u2) (fun a _ => hid),
    hfind]
  have huid : u.id = id := find?_some_key hfind
  simp [huid]

/-- `save` never changes the number of stored rows. -/
theorem saveUser_length (t : UsersTable) (u2 : User) :
    (saveUser t u2).rows.length = t.rows.length := by
  unfold saveUser
  simp

/-- After deleting the rows with a key, looking the key up fails. -/
theorem findOneUser_after_delete {t : UsersTable} {id : Nat} {u : User}
    (huid : u.id = id) :
    findOneUser { t with rows := t.rows.filter (fun v => v.id != u.id) } id =
      Except.error ApiError.notFound := by
  unfold findOneUser
  rw [huid]
  rw [find?_filter_ne t.rows (fun v => v.id) id]

/-- C8 as stated is false: the re-validation guard
`if (dto.email && dto.email !== user.email)` uses JavaScript truthiness, so
a payload carrying the EMPTY string — an email different from the stored
one and belonging to another stored user — skips the uniqueness check, and
the update succeeds instead of signaling a conflict. -/
theorem updateUser_email_recheck_counterexample :
    ((⟨1, "A", "", none, true, 1⟩ : User) ∈
        (⟨[⟨1, "A", "", none, true, 1⟩, ⟨2, "B", "b@x.com", none, true, 2⟩],
          3⟩ : UsersTable).rows ∧
      (⟨1, "A", "", none, true, 1⟩ : User).id ≠ 2 ∧
      (⟨1, "A", "", none, true, 1⟩ : User).email = "") ∧
    ("" : String) ≠ "b@x.com" ∧
    updateUser
        ⟨[⟨1, "A", "", none, true, 1⟩, ⟨2, "B", "b@x.com", none, true, 2⟩], 3⟩
        2 { email := some "" } =
      Except.ok (⟨2, "B", "", none, true, 2⟩,
        ⟨[⟨1, "A", "", none, true, 1⟩, ⟨2, "B", "", none, true, 2⟩], 3⟩) ∧
    Except.ok (ε := ApiError)
        ((⟨2, "B", "", none, true, 2⟩ : User),
          (⟨[⟨1, "A", "", none, true, 1⟩, ⟨2, "B", "", none, true, 2⟩], 3⟩ :
            UsersTable)) ≠
      Except.error ApiError.conflict :=
  ⟨⟨by simp, by decide, rfl⟩, by decide, rfl, fun hc => Except.noConfusion hc⟩

/-- C8 amended: uniqueness is re-validated exactly when the payload contains
a NON-EMPTY email different from the stored user's email: if that new email
belongs to another stored user the operation signals a conflict and leaves
the table unchanged; an update whose payload omits email or carries the same
email as stored never signals a conflict. -/
theorem updateUser_email_uniqueness_recheck (t : UsersTable) (id : Nat)
    (dto : UpdateUserDto) (u : User)
    (hfind : findOneUser t id = Except.ok u) :
    (∀ e, dto.email = some e → e ≠ "" → e ≠ u.email →
      (∃ v ∈ t.rows, v.email = e) →
      updateUser t id dto = Except.error ApiError.conflict ∧
      ∀ r, updateUser t id dto ≠ Except.ok r) ∧
    ((dto.email = none ∨ dto.email = some u.email) →
      updateUser t id dto ≠ Except.error ApiError.conflict) := by
  constructor
  · rintro e he hne hneu ⟨v, hv, hve⟩
    have h : updateUser t id dto = Except.error ApiError.conflict := by
      unfold updateUser
      rw [hfind]
      simp only [he]
      rw [if_pos ⟨hne, hneu⟩]
      unfold validateEmailUniqueness
      cases hf2 : t.rows.find? (fun w => w.email == e) with
      | none =>
        rw [List.find?_eq_none] at hf2
        exact absurd (by simp [hve]) (hf2 v hv)
      | some w => simp
    refine ⟨h, fun r hc => ?_⟩
    rw [h] at hc
    exact Except.noConfusion hc
  · intro hsame hc
    unfold updateUser at hc
    rw [hfind] at hc
    rcases hsame with hnone | hsome
    · rw [hnone] at hc
      exact Except.noConfusion hc
    · rw [hsome] at hc
      simp only [] at hc
      have hneg : ¬(u.email ≠ "" ∧ u.email ≠ u.email) := fun hand => hand.2 rfl
      rw [if_neg hneg] at hc
      exact Except.noConfusion hc

/-- Concrete instantiation of the amended C8: changing user 2's email to the
non-empty `a@x.com`, which user 1 holds, conflicts; re-sending user 2's own
email does not. -/
theorem updateUser_email_uniqueness_recheck_witness :
    (updateUser
        ⟨[⟨1, "A", "a@x.com", none, true, 1⟩,
          ⟨2, "B", "b@x.com", none, true, 2⟩], 3⟩ 2
        { email := some "a@x.com" } =
      Except.error ApiError.conflict ∧
      ∀ r, updateUser
        ⟨[⟨1, "A", "a@x.com", none, true, 1⟩,
          ⟨2, "B", "b@x.com", none, true, 2⟩], 3⟩ 2
        { email := some "a@x.com" } ≠ Except.ok r) ∧
    updateUser
        ⟨[⟨1, "A", "a@x.com", none, true, 1⟩,
          ⟨2, "B", "b@x.com", none, true, 2⟩], 3⟩ 2
        { email := some "b@x.com" } ≠ Except.error ApiError.conflict :=
  ⟨(updateUser_email_uniqueness_recheck
        ⟨[⟨1, "A", "a@x.com", none, true, 1⟩,
          ⟨2, "B", "b@x.com", none, true, 2⟩], 3⟩ 2
        { email := some "a@x.com" } ⟨2, "B", "b@x.com", none, true, 2⟩
        rfl).1
      "a@x.com" rfl (by decide) (by decide)
      ⟨⟨1, "A", "a@x.com", none, true, 1⟩, by simp, rfl⟩,
    (updateUser_email_uniqueness_recheck
        ⟨[⟨1, "A", "a@x.com", none, true, 1⟩,
          ⟨2, "B", "b@x.com", none, true, 2⟩], 3⟩ 2
        { email := some "b@x.com" } ⟨2, "B", "b@x.com", none, true, 2⟩
        rfl).2
      (Or.inr rfl)⟩

/-- C9: for every stored user, `remove(id)` keeps the row — the table keeps
its size and a subsequent `findOne(id)` returns the row with
`isActive = false` and every other field unchanged — while `hardDelete(id)`
removes it, after which `findOne(id)` signals not-found. -/
theorem removeUser_soft_hardDeleteUser_hard (t : UsersTable) (id : Nat)
    (u : User) (hfind : findOneUser t id = Except.ok u) :
    (∃ t2, removeUser t id = Except.ok t2 ∧
      t2.rows.length = t.rows.length ∧
      findOneUser t2 id = Except.ok { u with isActive := false }) ∧
    (∃ t3, hardDeleteUser t id = Except.ok t3 ∧
      findOneUser t3 id = Except.error ApiError.notFound) := by
  have hfind' := findOneUser_ok_iff.mp hfind
  have huid : u.id = id := find?_some_key hfind'
  constructor
  · refine ⟨saveUser t { u with isActive := false }, ?_, saveUser_length t _,
      findOneUser_after_save hfind' huid⟩
    unfold removeUser
    rw [hfind]
  · refine ⟨{ t with rows := t.rows.filter (fun v => v.id != u.id) }, ?_,
      findOneUser_after_delete huid⟩
    unfold hardDeleteUser
    rw [hfind]

/-- Concrete instantiation of C9: soft-removing the stored user keeps one
row and `findOne` then returns it deactivated; hard-deleting it makes
`findOne` fail. -/
theorem removeUser_soft_hardDeleteUser_hard_witness :
    (∃ t2, removeUser ⟨[⟨1, "Ana Ruiz", "ana@x.com", none, true, 1⟩], 2⟩ 1 =
        Except.ok t2 ∧
      t2.rows.length =
        (⟨[⟨1, "Ana Ruiz", "ana@x.com", none, true, 1⟩], 2⟩ :
          UsersTable).rows.length ∧
      findOneUser t2 1 =
        Except.ok ⟨1, "Ana Ruiz", "ana@x.com", none, false, 1⟩) ∧
    (∃ t3, hardDeleteUser ⟨[⟨1, "Ana Ruiz", "ana@x.com", none, true, 1⟩], 2⟩
        1 = Except.ok t3 ∧
      findOneUser t3 1 = Except.error ApiError.notFound) :=
  removeUser_soft_hardDeleteUser_hard
    ⟨[⟨1, "Ana Ruiz", "ana@x.com", none, true, 1⟩], 2⟩ 1
    ⟨1, "Ana Ruiz", "ana@x.com", none, true, 1⟩ rfl

/-- Saving an entity under a key leaves the rows with other keys
unchanged. -/
theorem saveUser_frame {t : UsersTable} {id : Nat} {u2 : User}
    (hid : u2.id = id) :
    usersExcept (saveUser t u2) id = usersExcept t id := by
  unfold usersExcept saveUser
  simp only []
  rw [hid]
  exact filter_ne_map_ite t.rows (fun v => v.id) id (fun _ => u2)
    (fun a _ => hid)

/-- A success of `updateUser` presupposes a successful lookup. -/
theorem updateUser_ok_found {t : UsersTable} {id : Nat} {dto : UpdateUserDto}
    {r : User × UsersTable} (h : updateUser t id dto = Except.ok r) :
    ∃ u, findOneUser t id = Except.ok u := by
  unfold updateUser at h
  cases hf : findOneUser t id with
  | error e =>
    rw [hf] at h
    exact absurd h (by simp)
  | ok u => exact ⟨u, rfl⟩

/-- C10: every id-addressed mutating operation of either service — Users
`update`/`remove`/`hardDelete`, Products
`update`/`updateStock`/`remove`/`softDelete`/`hardDelete` — when it
succeeds, modifies or deletes only the rows with the given id: the rows
with every other id are exactly preserved (and each service reaches only
its own table, so the other table is untouched by construction). -/
theorem mutations_frame_other_records :
    (∀ (t : UsersTable) (id : Nat) (dto : UpdateUserDto) (u2 : User)
        (t2 : UsersTable),
      updateUser t id dto = Except.ok (u2, t2) →
      usersExcept t2 id = usersExcept t id) ∧
    (∀ (t : UsersTable) (id : Nat) (t2 : UsersTable),
      removeUser t id = Except.ok t2 →
      usersExcept t2 id = usersExcept t id) ∧
    (∀ (t : UsersTable) (id : Nat) (t2 : UsersTable),
      hardDeleteUser t id = Except.ok t2 →
      usersExcept t2 id = usersExcept t id) ∧
    (∀ (t : ProductsTable) (id : Nat) (dto : UpdateProductDto) (p2 : Product)
        (t2 : ProductsTable),
      updateProduct t id dto = Except.ok (p2, t2) →
      productsExcept t2 id = productsExcept t id) ∧
    (∀ (t : ProductsTable) (id : Nat) (s : Int) (t2 : ProductsTable),
      updateStock t id s = Except.ok t2 →
      productsExcept t2 id = productsExcept t id) ∧
    (∀ (t : ProductsTable) (id : Nat) (t2 : ProductsTable),
      removeProduct t id = Except.ok t2 →
      productsExcept t2 id = productsExcept t id) ∧
    (∀ (t : ProductsTable) (id : Nat) (t2 : ProductsTable),
      softDeleteProduct t id = Except.ok t2 →
      productsExcept t2 id = productsExcept t id) ∧
    (∀ (t : ProductsTable) (id : Nat) (t2 : ProductsTable),
      hardDeleteProduct t id = Except.ok t2 →
      productsExcept t2 id = productsExcept t id) := by
  refine ⟨?_, ?_, ?_, ?_, ?_, ?_, ?_, ?_⟩
  · intro t id dto u2 t2 h
    obtain ⟨u, hf⟩ := updateUser_ok_found h
    obtain ⟨-, ht2⟩ := updateUser_ok_shape hf h
    subst ht2
    have huid : u.id = id := find?_some_key (findOneUser_ok_iff.mp hf)
    exact saveUser_frame (show (applyUserPatch u dto).id = id from huid)
  · intro t id t2 h
    unfold removeUser at h
    cases hf : findOneUser t id with
    | error e =>
      rw [hf] at h
      exact absurd h (by simp)
    | ok u =>
      rw [hf] at h
      simp only [Except.ok.injEq] at h
      subst h
      have huid : u.id = id := find?_some_key (findOneUser_ok_iff.mp hf)
      exact saveUser_frame
        (show ({ u with isActive := false } : User).id = id from huid)
  · intro t id t2 h
    unfold hardDeleteUser at h
    cases hf : findOneUser t id with
    | error e =>
      rw [hf] at h
      exact absurd h (by simp)
    | ok u =>
      rw [hf] at h
      simp only [Except.ok.injEq] at h
      subst h
      have huid : u.id = id := find?_some_key (findOneUser_ok_iff.mp hf)
      unfold usersExcept
      show (t.rows.filter (fun v => v.id != u.id)).filter
          (fun v => v.id != id) = _
      rw [huid]
      exact filter_ne_filter_ne t.rows (fun v => v.id) id
  · intro t id dto p2 t2 h
    have hfound : ∃ p, findOneProduct t id = Except.ok p := by
      unfold updateProduct at h
      cases hf : findOneProduct t id with
      | error e =>
        rw [hf] at h
        exact absurd h (by simp)
      | ok p => exact ⟨p, rfl⟩
    obtain ⟨p, hf⟩ := hfound
    obtain ⟨-, ht2⟩ := updateProduct_ok_shape hf h
    subst ht2
    unfold productsExcept
    exact filter_ne_map_ite t.rows (fun q => q.id) id
      (fun q => applyProductPatch q dto) (fun a ha => ha)
  · intro t id s t2 h
    unfold updateStock at h
    cases hf : findOneProduct t id with
    | error e =>
      rw [hf] at h
      exact absurd h (by simp)
    | ok p =>
      rw [hf] at h
      cases hv : validateStock s with
      | error e =>
        rw [hv] at h
        exact absurd h (by simp)
      | ok _ =>
        rw [hv] at h
        simp only [Except.ok.injEq] at h
        subst h
        unfold productsExcept
        exact filter_ne_map_ite t.rows (fun q => q.id) id
          (fun q => { q with stock := s }) (fun a ha => ha)
  · intro t id t2 h
    unfold removeProduct at h
    cases hf : findOneProduct t id with
    | error e =>
      rw [hf] at h
      exact absurd h (by simp)
    | ok p =>
      rw [hf] at h
      simp only [Except.ok.injEq] at h
      subst h
      unfold productsExcept
      exact filter_ne_filter_ne t.rows (fun q => q.id) id
  · intro t id t2 h
    unfold softDeleteProduct at h
    cases hf : findOneProduct t id with
    | error e =>
      rw [hf] at h
      exact absurd h (by simp)
    | ok p =>
      rw [hf] at h
      simp only [Except.ok.injEq] at h
      subst h
      unfold productsExcept
      exact filter_ne_map_ite t.rows (fun q => q.id) id
        (fun q => { q with isAvailable := false }) (fun a ha => ha)
  · intro t id t2 h
    unfold hardDeleteProduct at h
    cases hf : findOneProduct t id with
    | error e =>
      rw [hf] at h
      exact absurd h (by simp)
    | ok p =>
      rw [hf] at h
      simp only [Except.ok.injEq] at h
      subst h
      unfold productsExcept
      exact filter_ne_filter_ne t.rows (fun q => q.id) id

/-- Concrete instantiation of C10: updating user 1 in a two-user table and
removing product 1 from a two-product table leave the other row intact. -/
theorem mutations_frame_other_records_witness :
    usersExcept ⟨[⟨1, "A", "a@x.com", some 30, true, 1⟩,
        ⟨2, "B", "b@x.com", none, true, 2⟩], 3⟩ 1 =
      usersExcept ⟨[⟨1, "A", "a@x.com", none, true, 1⟩,
        ⟨2, "B", "b@x.com", none, true, 2⟩], 3⟩ 1 ∧
    productsExcept ⟨[⟨2, "Mug", none, 7, 9, "kitchen", true, 2⟩], 3⟩ 1 =
      productsExcept ⟨[⟨1, "Lamp", none, 15, 3, "home", true, 1⟩,
        ⟨2, "Mug", none, 7, 9, "kitchen", true, 2⟩], 3⟩ 1 :=
  ⟨mutations_frame_other_records.1
      ⟨[⟨1, "A", "a@x.com", none, true, 1⟩,
        ⟨2, "B", "b@x.com", none, true, 2⟩], 3⟩ 1 { age := some 30 }
      ⟨1, "A", "a@x.com", some 30, true, 1⟩
      ⟨[⟨1, "A", "a@x.com", some 30, true, 1⟩,
        ⟨2, "B", "b@x.com", none, true, 2⟩], 3⟩ rfl,
    mutations_frame_other_records.2.2.2.2.2.1
      ⟨[⟨1, "Lamp", none, 15, 3, "home", true, 1⟩,
        ⟨2, "Mug", none, 7, 9, "kitchen", true, 2⟩], 3⟩ 1
      ⟨[⟨2, "Mug", none, 7, 9, "kitchen", true, 2⟩], 3⟩ rfl⟩

end Crud
